import Mathlib

/-!
A shallow embedding of the `obsidian-plugin-gemini-rewrite` plugin and proofs
about its rewrite-request lifecycle and history log.

The embedding mirrors the plugin source: the settings/history data model, the
`addToHistory` bounded log, the `removeAt` deletion performed by the history
modal (`splice(index, 1)`), the credential resolution and response handling of
`callGeminiAPI`, the caller-side behaviour of `rewriteWithGemini`, and the
abort-controller lifecycle.  HTTP and the host editor are modelled as explicit
inputs (a `FetchOutcome` parameter, a selection string) and explicit outputs
(an effects record listing notifications and the replacement text).
-/

namespace GeminiRewrite

/-- A JSON value, as produced by parsing an HTTP response body.  Object fields
model the output of the JSON parser, in which duplicate keys have already been
resolved, so field lookup finds the unique binding. -/
inductive Json where
  | null
  | str (s : String)
  | num (n : Int)
  | arr (elems : List Json)
  | obj (fields : List (String × Json))
deriving Repr

/-- JavaScript property access `j.key` (via optional chaining `?.`):
defined on objects, `none` (undefined) otherwise. -/
def Json.getField : Json → String → Option Json
  | .obj fields, key => (fields.find? (fun f => f.1 == key)).map (fun f => f.2)
  | _, _ => none

/-- JavaScript index access `j[i]` (via optional chaining `?.[i]`):
array element, or single-character string for string indexing. -/
def Json.getIdx : Json → Nat → Option Json
  | .arr elems, i => elems.get? i
  | .str s, i => (s.toList.get? i).map (fun c => Json.str (String.mk [c]))
  | _, _ => none

/-- JavaScript truthiness of a JSON value: `null`, `""` and `0` are falsy;
every other JSON value is truthy. -/
def Json.truthy : Json → Bool
  | .null => false
  | .str s => s != ""
  | .num n => n != 0
  | .arr _ => true
  | .obj _ => true

/-- One record of the rewrite history (interface `RewriteHistoryItem`). -/
structure RewriteHistoryItem where
  originalText : String
  rewrittenText : String
  prompt : String
  timestamp : Nat
  model : String
deriving Repr, DecidableEq

/-- The plugin settings (interface `GeminiRewriteSettings`). -/
structure GeminiRewriteSettings where
  geminiApiKey : String
  customPrompt : String
  useEnvApiKey : Bool
  maxHistoryItems : Nat
  rewriteHistory : List RewriteHistoryItem
  selectedModel : String
deriving Repr, DecidableEq

/-- The process environment visible to the plugin; `none` models an unset
variable. -/
structure Env where
  GEMINI_API_KEY : Option String
  GEMINI_DEFAULT_PROMPT : Option String
deriving Repr, DecidableEq

/-- `DEFAULT_SETTINGS`: the default customPrompt comes from
`process.env.GEMINI_DEFAULT_PROMPT || "Please rewrite the following text:"`
(the JavaScript `||` falls through on an empty string). -/
def DEFAULT_SETTINGS (env : Env) : GeminiRewriteSettings :=
  { geminiApiKey := ""
    customPrompt :=
      match env.GEMINI_DEFAULT_PROMPT with
      | some p => if p == "" then "Please rewrite the following text:" else p
      | none => "Please rewrite the following text:"
    useEnvApiKey := true
    maxHistoryItems := 10
    rewriteHistory := []
    selectedModel := "gemini-2.5-pro-exp-03-25" }

/-- `GeminiRewritePlugin.addToHistory`: builds a history item, `unshift`s it to
the front of `rewriteHistory`, and when the length exceeds `maxHistoryItems`
truncates with `slice(0, maxHistoryItems)`. -/
def addToHistory (s : GeminiRewriteSettings)
    (originalText rewrittenText prompt : String) (now : Nat) :
    GeminiRewriteSettings :=
  let historyItem : RewriteHistoryItem :=
    { originalText := originalText
      rewrittenText := rewrittenText
      prompt := prompt
      timestamp := now
      model := s.selectedModel }
  let h := historyItem :: s.rewriteHistory
  let h' := if h.length > s.maxHistoryItems then h.take s.maxHistoryItems else h
  { s with rewriteHistory := h' }

/-- The arguments of one `addToHistory` call (`Date.now()` passed explicitly). -/
structure AppendInput where
  originalText : String
  rewrittenText : String
  prompt : String
  now : Nat
deriving Repr, DecidableEq

/-- The history item that `addToHistory` builds from its arguments, given the
currently selected model. -/
def mkHistoryItem (model : String) (i : AppendInput) : RewriteHistoryItem :=
  { originalText := i.originalText
    rewrittenText := i.rewrittenText
    prompt := i.prompt
    timestamp := i.now
    model := model }

/-- A sequence of `addToHistory` calls, performed in order. -/
def addAll (s : GeminiRewriteSettings) (items : List AppendInput) :
    GeminiRewriteSettings :=
  items.foldl
    (fun acc i => addToHistory acc i.originalText i.rewrittenText i.prompt i.now)
    s

lemma addToHistory_maxHistoryItems (s : GeminiRewriteSettings)
    (o r p : String) (t : Nat) :
    (addToHistory s o r p t).maxHistoryItems = s.maxHistoryItems := by
  simp [addToHistory]

lemma addToHistory_selectedModel (s : GeminiRewriteSettings)
    (o r p : String) (t : Nat) :
    (addToHistory s o r p t).selectedModel = s.selectedModel := by
  simp [addToHistory]

lemma addToHistory_rewriteHistory (s : GeminiRewriteSettings)
    (o r p : String) (t : Nat) :
    (addToHistory s o r p t).rewriteHistory =
      List.take s.maxHistoryItems
        (mkHistoryItem s.selectedModel ⟨o, r, p, t⟩ :: s.rewriteHistory) := by
  simp only [addToHistory, mkHistoryItem]
  split
  · rfl
  · next hle =>
    exact (List.take_of_length_le (by omega)).symm

lemma take_append_take (n : Nat) (A B : List RewriteHistoryItem) :
    List.take n (A ++ List.take n B) = List.take n (A ++ B) := by
  rw [List.take_append_eq_append_take, List.take_append_eq_append_take,
    List.take_take, Nat.min_eq_left (Nat.sub_le n A.length)]

lemma addAll_maxHistoryItems (s : GeminiRewriteSettings)
    (items : List AppendInput) :
    (addAll s items).maxHistoryItems = s.maxHistoryItems := by
  induction items generalizing s with
  | nil => rfl
  | cons i is ih =>
    simp only [addAll, List.foldl_cons] at *
    rw [ih, addToHistory_maxHistoryItems]

lemma addAll_selectedModel (s : GeminiRewriteSettings)
    (items : List AppendInput) :
    (addAll s items).selectedModel = s.selectedModel := by
  induction items generalizing s with
  | nil => rfl
  | cons i is ih =>
    simp only [addAll, List.foldl_cons] at *
    rw [ih, addToHistory_selectedModel]

lemma addAll_rewriteHistory (s : GeminiRewriteSettings)
    (items : List AppendInput) (h : items ≠ []) :
    (addAll s items).rewriteHistory =
      List.take s.maxHistoryItems
        (items.reverse.map (mkHistoryItem s.selectedModel) ++
          s.rewriteHistory) := by
  induction items generalizing s with
  | nil => exact absurd rfl h
  | cons i is ih =>
    simp only [addAll, List.foldl_cons]
    by_cases his : is = []
    · subst his
      simpa [addAll] using addToHistory_rewriteHistory s _ _ _ _
    · have := ih (addToHistory s i.originalText i.rewrittenText i.prompt i.now)
        his
      simp only [addAll] at this
      rw [this, addToHistory_maxHistoryItems, addToHistory_selectedModel,
        addToHistory_rewriteHistory]
      rw [take_append_take, List.reverse_cons, List.map_append,
        List.append_assoc]
      rfl

/-- Claim C1: for every `maxHistoryItems = N ≥ 0` and every nonempty sequence
of `addToHistory` calls, the history log's length never exceeds `N`; the log
equals the first `N` of the appended items in reverse append order (newest
first) in front of the older records; and when `N = 0` the log is empty after
any append. -/
theorem claim_C1_history_bounded_newest_first (s : GeminiRewriteSettings)
    (items : List AppendInput) (h : items ≠ []) :
    (addAll s items).rewriteHistory.length ≤ s.maxHistoryItems ∧
    (addAll s items).rewriteHistory =
      List.take s.maxHistoryItems
        (items.reverse.map (mkHistoryItem s.selectedModel) ++
          s.rewriteHistory) ∧
    (s.maxHistoryItems = 0 → (addAll s items).rewriteHistory = []) := by
  have hh := addAll_rewriteHistory s items h
  refine ⟨?_, hh, ?_⟩
  · rw [hh]
    exact List.length_take_le _ _
  · intro h0
    rw [hh, h0]
    rfl

/-- Witness for C1 at a concrete input: two appends with a limit of 1 keep
only the newest record. -/
theorem claim_C1_witness :
    ([AppendInput.mk "a" "b" "p" 0, AppendInput.mk "c" "d" "p" 1] ≠
      ([] : List AppendInput)) ∧
    (addAll
        { geminiApiKey := ""
          customPrompt := "p"
          useEnvApiKey := true
          maxHistoryItems := 1
          rewriteHistory := []
          selectedModel := "m" }
        [AppendInput.mk "a" "b" "p" 0, AppendInput.mk "c" "d" "p" 1]
      ).rewriteHistory.length ≤ 1 := by
  refine ⟨by decide, ?_⟩
  have := claim_C1_history_bounded_newest_first
    { geminiApiKey := ""
      customPrompt := "p"
      useEnvApiKey := true
      maxHistoryItems := 1
      rewriteHistory := []
      selectedModel := "m" }
    [AppendInput.mk "a" "b" "p" 0, AppendInput.mk "c" "d" "p" 1]
    (by decide)
  exact this.1

mutual

/-- JavaScript string coercion of a JSON value in a template literal:
strings stay themselves, numbers print in decimal, arrays join their coerced
elements with commas, plain objects print as `[object Object]`. -/
def Json.display : Json → String
  | .null => "null"
  | .str s => s
  | .num n => toString n
  | .obj _ => "[object Object]"
  | .arr elems => Json.displayList elems

/-- Comma-joining of the coerced elements of an array. -/
def Json.displayList : List Json → String
  | [] => ""
  | [x] => Json.display x
  | x :: xs => Json.display x ++ "," ++ Json.displayList xs

end

/-- The errors `callGeminiAPI` can produce, one constructor per `throw` site
plus the two rejection modes of `fetch` (abort and transport failure) and a
failing `response.json()` on the success path. -/
inductive ApiError where
  | missingCredential
  | upstreamError (message : String)
  | malformedResponse
  | jsonParseError (message : String)
  | fetchFailed (message : String)
  | aborted
deriving Repr, DecidableEq

/-- Whether the thrown error has `name === "AbortError"`: only the rejection
of an aborted `fetch` does; every `new Error(...)` has name `"Error"`. -/
def ApiError.isAbortError : ApiError → Bool
  | .aborted => true
  | _ => false

/-- The `message` property of the thrown error object. -/
def ApiError.jsMessage : ApiError → String
  | .missingCredential =>
      "Gemini API key is not set. Please add it to your .env file or plugin settings."
  | .upstreamError m => "API request failed: " ++ m
  | .malformedResponse => "Invalid response from Gemini API"
  | .jsonParseError m => m
  | .fetchFailed m => m
  | .aborted => "The operation was aborted."

/-- The outcome of the `fetch` call: a response with a status code and the
result of `response.json()` (which can itself fail), a rejection with an
`AbortError`, or a transport failure. -/
inductive FetchOutcome where
  | success (status : Nat) (body : Except String Json)
  | abortError
  | fetchFailed (message : String)
deriving Repr

/-- `response.ok`: the status code is in the range 200-299. -/
def statusOk (status : Nat) : Bool :=
  decide (200 ≤ status ∧ status ≤ 299)

/-- The credential resolution of `callGeminiAPI`:
`this.settings.useEnvApiKey ? process.env.GEMINI_API_KEY || this.settings.geminiApiKey : this.settings.geminiApiKey`.
The JavaScript `||` falls through both when the variable is unset and when it
is set to the empty string. -/
def resolveApiKey (s : GeminiRewriteSettings) (env : Env) : String :=
  if s.useEnvApiKey then
    match env.GEMINI_API_KEY with
    | some k => if k = "" then s.geminiApiKey else k
    | none => s.geminiApiKey
  else s.geminiApiKey

/-- The optional-chaining path `errorData?.error?.message` used on a non-2xx
response body. -/
def upstreamMessagePath (errorData : Option Json) : Option Json :=
  (errorData.bind (fun j => j.getField "error")).bind
    (fun j => j.getField "message")

/-- `errorData?.error?.message || "Status: " + response.status`: the parsed
message when present and truthy, else the status-code fallback. -/
def upstreamMessage (errorData : Option Json) (status : Nat) : String :=
  match upstreamMessagePath errorData with
  | some m => if m.truthy then m.display else "Status: " ++ toString status
  | none => "Status: " ++ toString status

/-- The optional-chaining path
`data.candidates?.[0]?.content?.parts?.[0]?.text` used on a 2xx response
body. -/
def extractFirstCandidateText (data : Json) : Option Json :=
  (((((data.getField "candidates").bind (fun j => j.getIdx 0)).bind
    (fun j => j.getField "content")).bind
    (fun j => j.getField "parts")).bind
    (fun j => j.getIdx 0)).bind
    (fun j => j.getField "text")

/-- `GeminiRewritePlugin.callGeminiAPI`, with the network modelled as the
explicit `fetchResult` argument: resolves the credential and fails with
`missingCredential` when it is empty (before the fetch outcome is examined);
otherwise, on a non-2xx status throws an `upstreamError` with the best
available message; on a 2xx status extracts the first candidate's text and
throws `malformedResponse` when the path is absent or its value is falsy;
rejections of `fetch` itself are rethrown unchanged. -/
def callGeminiAPI (s : GeminiRewriteSettings) (env : Env)
    (fetchResult : FetchOutcome) : Except ApiError Json :=
  let apiKey := resolveApiKey s env
  if apiKey = "" then .error .missingCredential
  else
    match fetchResult with
    | .abortError => .error .aborted
    | .fetchFailed m => .error (.fetchFailed m)
    | .success status body =>
      if statusOk status then
        match body with
        | .error m => .error (.jsonParseError m)
        | .ok data =>
          match extractFirstCandidateText data with
          | some j => if j.truthy then .ok j else .error .malformedResponse
          | none => .error .malformedResponse
      else
        .error (.upstreamError (upstreamMessage body.toOption status))

/-- The observable effects of one `rewriteWithGemini` call: the settings
afterwards (history included), the notifications shown, the text substituted
for the selection if any, and whether `callGeminiAPI` was invoked at all. -/
structure RewriteEffects where
  settings : GeminiRewriteSettings
  notices : List String
  replacedWith : Option String
  engineInvoked : Bool
deriving Repr, DecidableEq

/-- The notification text of the error branch:
`Error: ${error.message || "Failed to rewrite text"}`. -/
def errorNotice (e : ApiError) : String :=
  "Error: " ++ (if e.jsMessage = "" then "Failed to rewrite text" else e.jsMessage)

/-- `GeminiRewritePlugin.rewriteWithGemini`, with the editor's selection and
the result of `callGeminiAPI` as explicit arguments: an empty selection only
shows "No text selected" and returns; on success the selection is replaced,
the rewrite is added to history and a success notice is shown; an
`AbortError` is swallowed silently; any other error shows its message. -/
def rewriteWithGemini (s : GeminiRewriteSettings) (selection : String)
    (apiResult : Except ApiError String) (now : Nat) : RewriteEffects :=
  if selection = "" then
    { settings := s
      notices := ["No text selected"]
      replacedWith := none
      engineInvoked := false }
  else
    match apiResult with
    | .ok rewrittenText =>
      { settings := addToHistory s selection rewrittenText s.customPrompt now
        notices := ["Text successfully rewritten"]
        replacedWith := some rewrittenText
        engineInvoked := true }
    | .error e =>
      if e.isAbortError then
        { settings := s
          notices := []
          replacedWith := none
          engineInvoked := true }
      else
        { settings := s
          notices := [errorNotice e]
          replacedWith := none
          engineInvoked := true }

/-- The 429 response body `{"error":{"message":"rate limited"}}`. -/
def rateLimitedBody : Json :=
  .obj [("error", .obj [("message", .str "rate limited")])]

/-- The 200 response body
`{"candidates":[{"content":{"parts":[{"text":"Rewritten."}]}}]}`. -/
def rewrittenBody : Json :=
  .obj [("candidates", .arr
    [.obj [("content", .obj [("parts", .arr [.obj [("text", .str "Rewritten.")]])])]])]

/-- The 200 response body `{"candidates":[]}`. -/
def emptyCandidatesBody : Json :=
  .obj [("candidates", .arr [])]

/-- A 200 response body whose extraction path is present but holds the empty
string: `{"candidates":[{"content":{"parts":[{"text":""}]}}]}`. -/
def emptyTextBody : Json :=
  .obj [("candidates", .arr
    [.obj [("content", .obj [("parts", .arr [.obj [("text", .str "")]])])]])]

/-- A sample settings state with a directly configured, non-empty key. -/
def sampleSettings : GeminiRewriteSettings :=
  { geminiApiKey := "k"
    customPrompt := "p"
    useEnvApiKey := false
    maxHistoryItems := 10
    rewriteHistory := []
    selectedModel := "m" }

/-- A sample environment with no variables set. -/
def sampleEnv : Env :=
  { GEMINI_API_KEY := none, GEMINI_DEFAULT_PROMPT := none }

lemma callGeminiAPI_of_key_ne (s : GeminiRewriteSettings) (env : Env)
    (hkey : resolveApiKey s env ≠ "") (fr : FetchOutcome) :
    callGeminiAPI s env fr =
      match fr with
      | .abortError => .error .aborted
      | .fetchFailed m => .error (.fetchFailed m)
      | .success status body =>
        if statusOk status then
          match body with
          | .error m => .error (.jsonParseError m)
          | .ok data =>
            match extractFirstCandidateText data with
            | some j => if j.truthy then .ok j else .error .malformedResponse
            | none => .error .malformedResponse
        else
          .error (.upstreamError (upstreamMessage body.toOption status)) := by
  unfold callGeminiAPI
  rw [if_neg hkey]

lemma callGeminiAPI_upstream (s : GeminiRewriteSettings) (env : Env)
    (status : Nat) (body : Except String Json)
    (hkey : resolveApiKey s env ≠ "") (hstatus : statusOk status = false) :
    callGeminiAPI s env (.success status body) =
      .error (.upstreamError (upstreamMessage body.toOption status)) := by
  rw [callGeminiAPI_of_key_ne s env hkey]
  simp [hstatus]

lemma rewriteWithGemini_ok (s : GeminiRewriteSettings) (selection t : String)
    (now : Nat) (hsel : selection ≠ "") :
    rewriteWithGemini s selection (.ok t) now =
      { settings := addToHistory s selection t s.customPrompt now
        notices := ["Text successfully rewritten"]
        replacedWith := some t
        engineInvoked := true } := by
  unfold rewriteWithGemini
  rw [if_neg hsel]

lemma rewriteWithGemini_error (s : GeminiRewriteSettings) (selection : String)
    (e : ApiError) (now : Nat) (hsel : selection ≠ "")
    (habort : e.isAbortError = false) :
    rewriteWithGemini s selection (.error e) now =
      { settings := s
        notices := [errorNotice e]
        replacedWith := none
        engineInvoked := true } := by
  unfold rewriteWithGemini
  rw [if_neg hsel]
  simp [habort]

lemma rewriteWithGemini_aborted (s : GeminiRewriteSettings)
    (selection : String) (now : Nat) (hsel : selection ≠ "") :
    rewriteWithGemini s selection (.error .aborted) now =
      { settings := s
        notices := []
        replacedWith := none
        engineInvoked := true } := by
  unfold rewriteWithGemini
  rw [if_neg hsel]
  rfl

/-- Claim C2: with a non-empty credential, every non-2xx response produces an
`upstreamError`; on the concrete 429 body `{"error":{"message":"rate limited"}}`
its message is exactly `rate limited`; in general the message is the parsed
`error.message` whenever that is present and non-empty, and the status-code
fallback `Status: <code>` whenever the path is absent. -/
theorem claim_C2_upstream_error_message (s : GeminiRewriteSettings) (env : Env)
    (status : Nat) (hkey : resolveApiKey s env ≠ "")
    (hstatus : statusOk status = false) :
    callGeminiAPI s env (.success status (.ok rateLimitedBody)) =
      .error (.upstreamError "rate limited") ∧
    (∀ body : Except String Json, upstreamMessagePath body.toOption = none →
      callGeminiAPI s env (.success status body) =
        .error (.upstreamError ("Status: " ++ toString status))) ∧
    (∀ body : Except String Json, ∀ m : String, m ≠ "" →
      upstreamMessagePath body.toOption = some (.str m) →
      callGeminiAPI s env (.success status body) =
        .error (.upstreamError m)) := by
  refine ⟨?_, ?_, ?_⟩
  · rw [callGeminiAPI_upstream s env status _ hkey hstatus]
    rfl
  · intro body hb
    rw [callGeminiAPI_upstream s env status body hkey hstatus]
    unfold upstreamMessage
    rw [hb]
  · intro body m hm hb
    rw [callGeminiAPI_upstream s env status body hkey hstatus]
    unfold upstreamMessage
    rw [hb]
    simp [Json.truthy, Json.display, hm]

/-- Witness for C2 at a concrete input: HTTP 429 with the rate-limited body. -/
theorem claim_C2_witness :
    resolveApiKey sampleSettings sampleEnv ≠ "" ∧
    statusOk 429 = false ∧
    callGeminiAPI sampleSettings sampleEnv
        (.success 429 (.ok rateLimitedBody)) =
      .error (.upstreamError "rate limited") :=
  ⟨by decide, by decide,
    (claim_C2_upstream_error_message sampleSettings sampleEnv 429
      (by decide) (by decide)).1⟩

/-- Claim C4: with a non-empty selection and credential, a 200 response with
body `{"candidates":[{"content":{"parts":[{"text":"Rewritten."}]}}]}` resolves
to `Rewritten.`, the selection is replaced by it, and the history becomes the
record (originalText = the selection, rewrittenText = `Rewritten.`) in front
of the old records, truncated to the limit; with a positive limit that record
is the head of the log. -/
theorem claim_C4_success_appends_record (s : GeminiRewriteSettings) (env : Env)
    (selection : String) (now : Nat)
    (hsel : selection ≠ "") (hkey : resolveApiKey s env ≠ "") :
    callGeminiAPI s env (.success 200 (.ok rewrittenBody)) =
      .ok (.str "Rewritten.") ∧
    (rewriteWithGemini s selection (.ok "Rewritten.") now).replacedWith =
      some "Rewritten." ∧
    (rewriteWithGemini s selection (.ok "Rewritten.") now).notices =
      ["Text successfully rewritten"] ∧
    (rewriteWithGemini s selection (.ok "Rewritten.") now).settings.rewriteHistory =
      List.take s.maxHistoryItems
        ({ originalText := selection
           rewrittenText := "Rewritten."
           prompt := s.customPrompt
           timestamp := now
           model := s.selectedModel } :: s.rewriteHistory) ∧
    (0 < s.maxHistoryItems →
      (rewriteWithGemini s selection
          (.ok "Rewritten.") now).settings.rewriteHistory.head? =
        some { originalText := selection
               rewrittenText := "Rewritten."
               prompt := s.customPrompt
               timestamp := now
               model := s.selectedModel }) := by
  have hm : (rewriteWithGemini s selection (.ok "Rewritten.") now).settings.rewriteHistory =
      List.take s.maxHistoryItems
        ({ originalText := selection
           rewrittenText := "Rewritten."
           prompt := s.customPrompt
           timestamp := now
           model := s.selectedModel } :: s.rewriteHistory) := by
    rw [rewriteWithGemini_ok s selection _ now hsel]
    exact addToHistory_rewriteHistory s selection "Rewritten." s.customPrompt now
  refine ⟨?_, ?_, ?_, hm, ?_⟩
  · rw [callGeminiAPI_of_key_ne s env hkey]
    rfl
  · rw [rewriteWithGemini_ok s selection _ now hsel]
  · rw [rewriteWithGemini_ok s selection _ now hsel]
  · intro h0
    rw [hm]
    obtain ⟨n, hn⟩ := Nat.exists_eq_succ_of_ne_zero (Nat.pos_iff_ne_zero.mp h0)
    rw [hn, List.take_succ_cons]
    rfl

/-- Witness for C4 at a concrete input. -/
theorem claim_C4_witness :
    ("Hello" ≠ "") ∧
    resolveApiKey sampleSettings sampleEnv ≠ "" ∧
    callGeminiAPI sampleSettings sampleEnv
        (.success 200 (.ok rewrittenBody)) = .ok (.str "Rewritten.") :=
  ⟨by decide, by decide,
    (claim_C4_success_appends_record sampleSettings sampleEnv "Hello" 5
      (by decide) (by decide)).1⟩

/-- Claim C5: with a non-empty selection and credential, a 200 response with
an empty candidates array fails with `malformedResponse`; the caller leaves
the settings (history included) unchanged, shows the malformed-response error
notice, and replaces nothing. -/
theorem claim_C5_empty_candidates_malformed (s : GeminiRewriteSettings)
    (env : Env) (selection : String) (now : Nat)
    (hsel : selection ≠ "") (hkey : resolveApiKey s env ≠ "") :
    callGeminiAPI s env (.success 200 (.ok emptyCandidatesBody)) =
      .error .malformedResponse ∧
    (rewriteWithGemini s selection (.error .malformedResponse) now).settings = s ∧
    (rewriteWithGemini s selection (.error .malformedResponse) now).notices =
      ["Error: Invalid response from Gemini API"] ∧
    (rewriteWithGemini s selection (.error .malformedResponse) now).replacedWith =
      none := by
  have he := rewriteWithGemini_error s selection .malformedResponse now hsel rfl
  refine ⟨?_, ?_, ?_, ?_⟩
  · rw [callGeminiAPI_of_key_ne s env hkey]
    rfl
  · rw [he]
  · rw [he]
    rfl
  · rw [he]

/-- Witness for C5 at a concrete input. -/
theorem claim_C5_witness :
    ("Hello" ≠ "") ∧
    resolveApiKey sampleSettings sampleEnv ≠ "" ∧
    callGeminiAPI sampleSettings sampleEnv
        (.success 200 (.ok emptyCandidatesBody)) = .error .malformedResponse :=
  ⟨by decide, by decide,
    (claim_C5_empty_candidates_malformed sampleSettings sampleEnv "Hello" 5
      (by decide) (by decide)).1⟩

/-- Claim C6: a rewrite call whose engine outcome is the abort rejection
appends nothing to history (the settings are unchanged) and surfaces no
notification at all; and with a non-empty credential an aborted fetch is what
produces that outcome. -/
theorem claim_C6_cancelled_silent (s : GeminiRewriteSettings)
    (selection : String) (now : Nat) (hsel : selection ≠ "") :
    (∀ env : Env, resolveApiKey s env ≠ "" →
      callGeminiAPI s env .abortError = .error .aborted) ∧
    (rewriteWithGemini s selection (.error .aborted) now).settings = s ∧
    (rewriteWithGemini s selection (.error .aborted) now).notices = [] ∧
    (rewriteWithGemini s selection (.error .aborted) now).replacedWith = none := by
  have ha := rewriteWithGemini_aborted s selection now hsel
  refine ⟨?_, ?_, ?_, ?_⟩
  · intro env hk
    rw [callGeminiAPI_of_key_ne s env hk]
  · rw [ha]
  · rw [ha]
  · rw [ha]

/-- Witness for C6 at a concrete input. -/
theorem claim_C6_witness :
    ("Hello" ≠ "") ∧
    (rewriteWithGemini sampleSettings "Hello" (.error .aborted) 5).notices =
      [] :=
  ⟨by decide,
    (claim_C6_cancelled_silent sampleSettings "Hello" 5 (by decide)).2.2.1⟩

/-- Claim C7: a rewrite call with an empty selection shows only the
"No text selected" notice, leaves the settings (history included) unchanged,
replaces nothing, and never invokes the engine: its effects are the same for
every possible engine outcome. -/
theorem claim_C7_empty_selection_no_call (s : GeminiRewriteSettings)
    (apiResult : Except ApiError String) (now : Nat) :
    rewriteWithGemini s "" apiResult now =
      { settings := s
        notices := ["No text selected"]
        replacedWith := none
        engineInvoked := false } := rfl

/-- Claim C9: a 200 response in which the path
`candidates[0].content.parts[0].text` is present but holds the empty string is
rejected as `malformedResponse` (the truthiness check rejects falsy values,
not only an absent path), and the caller's settings stay unchanged. -/
theorem claim_C9_empty_text_malformed (s : GeminiRewriteSettings) (env : Env)
    (selection : String) (now : Nat)
    (hsel : selection ≠ "") (hkey : resolveApiKey s env ≠ "") :
    extractFirstCandidateText emptyTextBody = some (.str "") ∧
    callGeminiAPI s env (.success 200 (.ok emptyTextBody)) =
      .error .malformedResponse ∧
    (rewriteWithGemini s selection (.error .malformedResponse) now).settings =
      s := by
  refine ⟨rfl, ?_, ?_⟩
  · rw [callGeminiAPI_of_key_ne s env hkey]
    rfl
  · rw [rewriteWithGemini_error s selection .malformedResponse now hsel rfl]

/-- Witness for C9 at a concrete input. -/
theorem claim_C9_witness :
    ("Hello" ≠ "") ∧
    resolveApiKey sampleSettings sampleEnv ≠ "" ∧
    callGeminiAPI sampleSettings sampleEnv
        (.success 200 (.ok emptyTextBody)) = .error .malformedResponse :=
  ⟨by decide, by decide,
    (claim_C9_empty_text_malformed sampleSettings sampleEnv "Hello" 5
      (by decide) (by decide)).2.1⟩

/-- Modelled from the spec's wording of C3, for comparison only: the
effective credential is the environment-sourced value whenever
`useEnvCredential` is true (empty when the variable is unset), else the
configured credential. -/
def resolveApiKeyAsClaimed (s : GeminiRewriteSettings) (env : Env) : String :=
  if s.useEnvApiKey then env.GEMINI_API_KEY.getD "" else s.geminiApiKey

/-- A settings state with `useEnvApiKey = true` and a non-empty configured
key, the configuration on which claim C3 fails. -/
def envFallbackSettings : GeminiRewriteSettings :=
  { geminiApiKey := "settings-key"
    customPrompt := "p"
    useEnvApiKey := true
    maxHistoryItems := 10
    rewriteHistory := []
    selectedModel := "m" }

/-- Counterexample to claim C3 as stated: with `useEnvApiKey = true` and the
environment variable unset, the code's effective credential is the configured
settings key, not the (empty) environment value, and the call proceeds to a
successful result instead of failing with `missingCredential`. -/
theorem claim_C3_counterexample :
    resolveApiKey envFallbackSettings sampleEnv = "settings-key" ∧
    resolveApiKeyAsClaimed envFallbackSettings sampleEnv = "" ∧
    resolveApiKey envFallbackSettings sampleEnv ≠
      resolveApiKeyAsClaimed envFallbackSettings sampleEnv ∧
    callGeminiAPI envFallbackSettings sampleEnv
        (.success 200 (.ok rewrittenBody)) = .ok (.str "Rewritten.") :=
  ⟨rfl, rfl, by decide, rfl⟩

/-- Claim C3 as amended: when `useEnvApiKey` is true the effective credential
is the environment value if that is non-empty, and the configured
`geminiApiKey` otherwise (unset or empty variable); when false it is the
configured `geminiApiKey`; and whenever the effective credential is empty the
call fails with `missingCredential` whatever the network would have answered,
so before any network call. -/
theorem claim_C3_credential_resolution (s : GeminiRewriteSettings) (env : Env) :
    (∀ k, s.useEnvApiKey = true → env.GEMINI_API_KEY = some k → k ≠ "" →
      resolveApiKey s env = k) ∧
    (s.useEnvApiKey = true →
      env.GEMINI_API_KEY = none ∨ env.GEMINI_API_KEY = some "" →
      resolveApiKey s env = s.geminiApiKey) ∧
    (s.useEnvApiKey = false → resolveApiKey s env = s.geminiApiKey) ∧
    (∀ fetchResult, resolveApiKey s env = "" →
      callGeminiAPI s env fetchResult = .error .missingCredential) := by
  refine ⟨?_, ?_, ?_, ?_⟩
  · intro k henv hk hne
    unfold resolveApiKey
    rw [henv, hk]
    simp [hne]
  · intro henv hk
    unfold resolveApiKey
    rw [henv]
    rcases hk with h | h <;> rw [h] <;> simp
  · intro henv
    unfold resolveApiKey
    rw [henv]
    simp
  · intro fetchResult hempty
    unfold callGeminiAPI
    rw [if_pos hempty]

/-- Witness for the amended C3 at a concrete input: with the environment
variable unset, the resolution falls back to the configured key. -/
theorem claim_C3_witness :
    envFallbackSettings.useEnvApiKey = true ∧
    (sampleEnv.GEMINI_API_KEY = none ∨ sampleEnv.GEMINI_API_KEY = some "") ∧
    resolveApiKey envFallbackSettings sampleEnv =
      envFallbackSettings.geminiApiKey :=
  ⟨rfl, Or.inl rfl,
    (claim_C3_credential_resolution envFallbackSettings sampleEnv).2.1
      rfl (Or.inl rfl)⟩

/-- The history modal's delete action, `rewriteHistory.splice(index, 1)`: for
a non-negative index, JavaScript `splice(index, 1)` keeps the first `index`
elements and everything after position `index + 1`. -/
def removeAt (l : List RewriteHistoryItem) (index : Nat) :
    List RewriteHistoryItem :=
  l.take index ++ l.drop (index + 1)

/-- Claim C8: `removeAt` is exactly the deletion of the record at `index`:
in bounds it removes one record, keeping every earlier record at its position
and shifting every later record down by one (relative order preserved); at or
beyond the length it leaves the log unchanged. -/
theorem claim_C8_removeAt_spec (l : List RewriteHistoryItem) (index : Nat) :
    removeAt l index = l.eraseIdx index ∧
    (index < l.length →
      (removeAt l index).length + 1 = l.length ∧
      (∀ j, j < index → (removeAt l index)[j]? = l[j]?) ∧
      (∀ j, index ≤ j → (removeAt l index)[j]? = l[j + 1]?)) ∧
    (l.length ≤ index → removeAt l index = l) := by
  have htl : (l.take index).length = min index l.length := List.length_take _ _
  refine ⟨(List.eraseIdx_eq_take_drop_succ l index).symm, ?_, ?_⟩
  · intro hlt
    have hlen : (l.take index).length = index := by omega
    refine ⟨?_, ?_, ?_⟩
    · unfold removeAt
      rw [List.length_append, hlen, List.length_drop]
      omega
    · intro j hj
      unfold removeAt
      rw [List.getElem?_append_left (by omega), List.getElem?_take_of_lt hj]
    · intro j hj
      unfold removeAt
      rw [List.getElem?_append_right (by omega), List.getElem?_drop, hlen]
      congr 1
      omega
  · intro hge
    unfold removeAt
    rw [List.take_of_length_le (by omega), List.drop_eq_nil_of_le (by omega),
      List.append_nil]

/-- Witness for C8 at a concrete input: deleting index 0 from a two-record
log leaves one record. -/
theorem claim_C8_witness :
    (0 : Nat) <
      ([{ originalText := "a", rewrittenText := "b", prompt := "p",
          timestamp := 0, model := "m" },
        { originalText := "c", rewrittenText := "d", prompt := "p",
          timestamp := 1, model := "m" }] :
        List RewriteHistoryItem).length ∧
    (removeAt
        [{ originalText := "a", rewrittenText := "b", prompt := "p",
           timestamp := 0, model := "m" },
         { originalText := "c", rewrittenText := "d", prompt := "p",
           timestamp := 1, model := "m" }] 0).length + 1 = 2 :=
  ⟨by decide,
    ((claim_C8_removeAt_spec
        [{ originalText := "a", rewrittenText := "b", prompt := "p",
           timestamp := 0, model := "m" },
         { originalText := "c", rewrittenText := "d", prompt := "p",
           timestamp := 1, model := "m" }] 0).2.1 (by decide)).1⟩

/-- The abort-controller field of the plugin, with controllers identified by a
number, together with which controllers have been aborted and which notices
the cancel command has shown. -/
structure CtrlState where
  abortController : Option Nat
  abortedIds : List Nat
  notices : List String
deriving Repr, DecidableEq

/-- The three events that touch `this.abortController`: a request starting
(`this.abortController = new AbortController()`), a request completing in any
way (the `finally` clause `this.abortController = null`), and the
cancel-ongoing command. -/
inductive ReqEvent where
  | startRequest (id : Nat)
  | finishRequest (id : Nat)
  | cancelOngoing
deriving Repr, DecidableEq

/-- One step of the abort-controller lifecycle.  `startRequest` stores the
fresh controller; `finishRequest` is the `finally` clause, which assigns null
without checking whose controller is stored; `cancelOngoing` is
`cancelOngoingRewrite`, which aborts and clears the stored controller when
there is one and otherwise does nothing. -/
def ctrlStep (st : CtrlState) : ReqEvent → CtrlState
  | .startRequest id => { st with abortController := some id }
  | .finishRequest _ => { st with abortController := none }
  | .cancelOngoing =>
    match st.abortController with
    | some id =>
      { abortController := none
        abortedIds := id :: st.abortedIds
        notices := "Rewrite request cancelled" :: st.notices }
    | none => st

/-- A sequence of lifecycle events, applied in order. -/
def ctrlRun (st : CtrlState) (events : List ReqEvent) : CtrlState :=
  events.foldl ctrlStep st

/-- Claim C10: any request's completion clears the tracked controller
unconditionally; in particular, after request 1 starts, request 2 starts, and
request 1 completes, the tracked controller is gone, so the cancel command is
a no-op and request 2 is never aborted. -/
theorem claim_C10_orphan_completion_clears_handle :
    (∀ (st : CtrlState) (id : Nat),
      (ctrlStep st (.finishRequest id)).abortController = none) ∧
    (ctrlRun ⟨none, [], []⟩
        [.startRequest 1, .startRequest 2, .finishRequest 1]).abortController =
      none ∧
    ctrlStep
        (ctrlRun ⟨none, [], []⟩
          [.startRequest 1, .startRequest 2, .finishRequest 1])
        .cancelOngoing =
      ctrlRun ⟨none, [], []⟩
        [.startRequest 1, .startRequest 2, .finishRequest 1] ∧
    2 ∉ (ctrlStep
        (ctrlRun ⟨none, [], []⟩
          [.startRequest 1, .startRequest 2, .finishRequest 1])
        .cancelOngoing).abortedIds :=
  ⟨fun _ _ => rfl, rfl, rfl, by decide⟩

end GeminiRewrite
